import Mathlib

/-!
Verification of the autotiling daemon (src/main.rs) against its
natural-language specification.

The embedding models the pure decision logic of `src/main.rs`:
machine floats (`f32`/`f64`) are modelled by exact rationals `ℚ` (the
program only ever compares ratios against the exactly representable
constants 0.0 and 1.0, and never accumulates rounding), the IPC
collaborator is factored out by passing the results of its queries
(`get_tree`, `get_workspaces`) as explicit inputs, and the side effect
`run_command s` is modelled by appending the command string `s` to the
list of issued commands.  Fallible functions return
`Except String (List String)`: the error message, or the list of
command strings passed to `run_command`.
-/

namespace Autotiling

/-- Layout mode of a tree node (swayipc `NodeLayout`). -/
inductive NodeLayout where
  | SplitH
  | SplitV
  | Stacked
  | Tabbed
  | Output
  | Dockarea
  | None
deriving DecidableEq, Repr

/-- Kind of a tree node (swayipc `NodeType`). -/
inductive NodeType where
  | Root
  | Output
  | Con
  | FloatingCon
  | Workspace
  | Dockarea
deriving DecidableEq, Repr

/-- A node's geometry (swayipc `Rect`, integer fields). -/
structure Rect where
  x : Int
  y : Int
  width : Int
  height : Int
deriving DecidableEq, Repr

/-- A window-tree node (the fields of swayipc `Node` that the program
reads): identity, focused flag, layout, kind, geometry, optional
fullscreen percent, tiling children, floating children, and the
application class from the optional window properties. -/
inductive Node where
  | mk (id : Int) (focused : Bool) (layout : NodeLayout) (nodeType : NodeType)
      (rect : Rect) (percent : Option ℚ) (nodes : List Node)
      (floating_nodes : List Node) (windowClass : Option String)

def Node.id : Node → Int
  | .mk i _ _ _ _ _ _ _ _ => i

def Node.focused : Node → Bool
  | .mk _ f _ _ _ _ _ _ _ => f

def Node.layout : Node → NodeLayout
  | .mk _ _ l _ _ _ _ _ _ => l

def Node.nodeType : Node → NodeType
  | .mk _ _ _ t _ _ _ _ _ => t

def Node.rect : Node → Rect
  | .mk _ _ _ _ r _ _ _ _ => r

def Node.percent : Node → Option ℚ
  | .mk _ _ _ _ _ p _ _ _ => p

def Node.nodes : Node → List Node
  | .mk _ _ _ _ _ _ ns _ _ => ns

def Node.floating_nodes : Node → List Node
  | .mk _ _ _ _ _ _ _ fns _ => fns

def Node.windowClass : Node → Option String
  | .mk _ _ _ _ _ _ _ _ w => w

mutual

/-- Modelled from the spec: the Tree Locator (spec section 4.3).  The
program delegates the tree search to swayipc's `Node::find_focused_as_ref`,
whose source is not part of this repository; the spec describes it as a
depth-first search of the snapshot returning the first node satisfying
the predicate (tiling children first, then floating children). -/
def Node.find_focused_as_ref (p : Node → Bool) : Node → Option Node
  | n@(Node.mk _ _ _ _ _ _ ns fns _) =>
    if p n then some n
    else
      match findInList p ns with
      | some m => some m
      | none => findInList p fns

/-- Depth-first search over a list of sibling subtrees. -/
def findInList (p : Node → Bool) : List Node → Option Node
  | [] => none
  | n :: rest =>
    match Node.find_focused_as_ref p n with
    | some m => some m
    | none => findInList p rest

end

/-- A workspace as returned by `get_workspaces` (the fields read). -/
structure Workspace where
  num : Int
  focused : Bool

/-- `MasterStackConfig` (src/main.rs lines 10-16): application class to
master percentage mapping (a `HashMap`, modelled as an association
list), and the balance-enable flag. -/
structure MasterStackConfig where
  master_apps : List (String × ℚ)
  enable_balance : Bool

/-- The `Default` impl of `MasterStackConfig` (src/main.rs lines 18-31). -/
def MasterStackConfig.default : MasterStackConfig :=
  ⟨[("firefox", 3/5), ("chromium", 3/5), ("steam", 13/20)], true⟩

/-- `calculate_aspect_ratio` (src/main.rs lines 34-42): width / height,
with 1.0 returned when the height is 0. -/
def calculate_aspect_ratio (node : Node) : ℚ :=
  let width : ℚ := (node.rect.width : ℚ)
  let height : ℚ := (node.rect.height : ℚ)
  if height = 0 then 1 else width / height

/-- `calculate_optimal_split` (src/main.rs lines 47-57): SplitV when the
aspect ratio exceeds 1.0, SplitH otherwise. -/
def calculate_optimal_split (parent_node : Node) : NodeLayout :=
  let aspect_ratio := calculate_aspect_ratio parent_node
  if 1 < aspect_ratio then NodeLayout.SplitV else NodeLayout.SplitH

/-- `is_master_window` (src/main.rs lines 80-87). -/
def is_master_window (node : Node) (config : MasterStackConfig) : Bool :=
  match node.windowClass with
  | some cls => config.master_apps.any fun kv => kv.1 == cls
  | none => false

/-- `apply_master_stack_layout` (src/main.rs lines 90-120): looks up the
master percentage and clamps it, but runs no IPC command on any path
(the actual resize is left unimplemented upstream); modelled as the list
of commands it issues, which is empty on every branch. -/
def apply_master_stack_layout (focused_node : Node) (config : MasterStackConfig) :
    List String :=
  if is_master_window focused_node config then
    match focused_node.windowClass with
    | some cls =>
      match config.master_apps.find? fun kv => kv.1 == cls with
      | some _ => []
      | none => []
    | none => []
  else []

/-- `balance_windows` (src/main.rs lines 123-127): runs the single IPC
command "balance". -/
def balance_windows : Except String (List String) :=
  Except.ok ["balance"]

/-- The part of `switch_splitting_advanced` after the workspace filter
(src/main.rs lines 153-200): locate the focused node, apply the
floating / fullscreen / stacked / tabbed eligibility checks, locate the
parent, compute the optimal split, and issue the split command when it
differs from the parent's current layout.  `tree` is the result of the
`get_tree` query. -/
def switch_splitting_after_filter (tree : Node) (config : MasterStackConfig) :
    Except String (List String) :=
  match Node.find_focused_as_ref (fun n => n.focused) tree with
  | none => Except.error "Could not find the focused node"
  | some focused_node =>
    let is_stacked := focused_node.layout = NodeLayout.Stacked
    let is_tabbed := focused_node.layout = NodeLayout.Tabbed
    let is_floating := focused_node.nodeType = NodeType.FloatingCon
    let is_full_screen := (1 : ℚ) < focused_node.percent.getD 1
    if is_floating ∨ is_full_screen ∨ is_stacked ∨ is_tabbed then Except.ok []
    else
      match Node.find_focused_as_ref (fun n => n.nodes.any fun m => m.focused) tree with
      | none => Except.error "Could not find parent container"
      | some parent =>
        let optimal_split := calculate_optimal_split parent
        if optimal_split = parent.layout then Except.ok []
        else
          match optimal_split with
          | NodeLayout.SplitV =>
            Except.ok (["splitv"] ++ apply_master_stack_layout focused_node config)
          | NodeLayout.SplitH =>
            Except.ok (["splith"] ++ apply_master_stack_layout focused_node config)
          | _ => Except.ok []

/-- `switch_splitting_advanced` (src/main.rs lines 130-201).
`workspaces` is the workspace allow-list (a `HashSet<i32>`, modelled as
the list of its elements) and `workspace_list` the result of the
`get_workspaces` query.  The Rust early returns for the workspace
filter are written as the equivalent conditional. -/
def switch_splitting_advanced (workspaces : List Int) (workspace_list : List Workspace)
    (tree : Node) (config : MasterStackConfig) : Except String (List String) :=
  if workspaces.isEmpty then switch_splitting_after_filter tree config
  else
    match (workspace_list.find? fun w => w.focused).map fun w => w.num with
    | some num =>
      if workspaces.contains num then switch_splitting_after_filter tree config
      else Except.ok []
    | none => Except.ok []

/-- A window-change kind (swayipc `WindowChange`). -/
inductive WindowChange where
  | New
  | Close
  | Focus
  | Title
  | FullscreenMode
  | Move
  | Floating
  | Urgent
  | Mark
deriving DecidableEq, Repr

/-- An event as consumed by the dispatcher loop; a window event carries
the snapshots the handler would obtain from the IPC queries while
handling it (`get_workspaces` and `get_tree`). -/
inductive Event where
  | Window (change : WindowChange) (workspace_list : List Workspace) (tree : Node)
  | Other

/-- One iteration of the event loop in `main` (src/main.rs lines
269-301), returning the pair (commands issued, error messages logged
with `error!`).  Focus events invoke `switch_splitting_advanced` and
log its error if any; New events run `balance_windows` when balancing
is enabled; every other event is ignored. -/
def handle_event (workspaces : List Int) (config : MasterStackConfig) :
    Event → List String × List String
  | Event.Window change workspace_list tree =>
    match change with
    | WindowChange.Focus =>
      match switch_splitting_advanced workspaces workspace_list tree config with
      | Except.ok cmds => (cmds, [])
      | Except.error e => ([], ["switch_splitting_advanced error: " ++ e])
    | WindowChange.New =>
      if config.enable_balance then
        match balance_windows with
        | Except.ok cmds => (cmds, [])
        | Except.error e => ([], ["balance_windows error: " ++ e])
      else ([], [])
    | _ => ([], [])
  | Event.Other => ([], [])

/-- The dispatcher loop over a finite prefix of the event stream: the
concatenation of the commands issued for each event. -/
def dispatch (workspaces : List Int) (config : MasterStackConfig) :
    List Event → List String
  | [] => []
  | e :: rest => (handle_event workspaces config e).1 ++ dispatch workspaces config rest

/-- A focused, eligible leaf window (a tiled child occupying half its
parent). -/
def focusedChild : Node :=
  Node.mk 2 true NodeLayout.None NodeType.Con ⟨0, 0, 960, 1080⟩ (some (1/2)) [] [] none

/-- A wide (1920 x 1080) parent container, currently SplitH, holding the
focused child. -/
def wideParent : Node :=
  Node.mk 1 false NodeLayout.SplitH NodeType.Con ⟨0, 0, 1920, 1080⟩ none [focusedChild] [] none

/-- A tall (1080 x 1920) parent container, currently SplitV, holding the
focused child. -/
def tallParentV : Node :=
  Node.mk 1 false NodeLayout.SplitV NodeType.Con ⟨0, 0, 1080, 1920⟩ none [focusedChild] [] none

/-- A tall (1080 x 1920) parent container, currently SplitH, holding the
focused child. -/
def tallParentH : Node :=
  Node.mk 1 false NodeLayout.SplitH NodeType.Con ⟨0, 0, 1080, 1920⟩ none [focusedChild] [] none

/-- A tree whose single node is not focused. -/
def unfocusedLeaf : Node :=
  Node.mk 7 false NodeLayout.SplitH NodeType.Con ⟨0, 0, 100, 100⟩ none [] [] none

/-- A tree whose root is focused and has no children (so no parent
container exists). -/
def rootOnlyFocused : Node :=
  Node.mk 1 true NodeLayout.SplitH NodeType.Root ⟨0, 0, 1920, 1080⟩ none [] [] none

/-! ## Helper lemmas -/

/-- `apply_master_stack_layout` issues no command on any branch. -/
theorem apply_master_stack_layout_eq_nil (n : Node) (config : MasterStackConfig) :
    apply_master_stack_layout n config = [] := by
  unfold apply_master_stack_layout
  split
  · split
    · split <;> rfl
    · rfl
  · rfl

/-- `calculate_optimal_split` only ever returns SplitV or SplitH. -/
theorem calculate_optimal_split_cases (n : Node) :
    calculate_optimal_split n = NodeLayout.SplitV ∨
      calculate_optimal_split n = NodeLayout.SplitH := by
  unfold calculate_optimal_split
  by_cases h : 1 < calculate_aspect_ratio n
  · exact Or.inl (if_pos h)
  · exact Or.inr (if_neg h)

/-- When the workspace filter passes (empty allow-list, or the focused
workspace's number is a member), `switch_splitting_advanced` behaves as
its body after the filter. -/
theorem switch_filter_pass (workspaces : List Int) (workspace_list : List Workspace)
    (tree : Node) (config : MasterStackConfig)
    (hws : workspaces = [] ∨ ∃ w, (workspace_list.find? fun x => x.focused) = some w ∧
      workspaces.contains w.num = true) :
    switch_splitting_advanced workspaces workspace_list tree config =
      switch_splitting_after_filter tree config := by
  unfold switch_splitting_advanced
  rcases hws with rfl | ⟨w, hw, hc⟩
  · simp
  · have hmem : w.num ∈ workspaces := by simpa using hc
    cases hempty : workspaces.isEmpty with
    | true => simp
    | false => simp [hw, hmem]

/-- If the body after the filter returns NoOp, so does the whole
decision, whatever the workspace filter does. -/
theorem switch_ok_nil_of_after (workspaces : List Int) (workspace_list : List Workspace)
    (tree : Node) (config : MasterStackConfig)
    (h : switch_splitting_after_filter tree config = Except.ok []) :
    switch_splitting_advanced workspaces workspace_list tree config = Except.ok [] := by
  unfold switch_splitting_advanced
  cases hempty : workspaces.isEmpty with
  | true => simpa using h
  | false =>
    cases hfind : workspace_list.find? fun w => w.focused with
    | none => simp [hfind]
    | some w =>
      cases hc : workspaces.contains w.num with
      | true =>
        have hmem : w.num ∈ workspaces := by simpa using hc
        simp [hfind, hmem, h]
      | false =>
        have hnmem : w.num ∉ workspaces := by simpa using hc
        simp [hfind, hnmem]

/-- An ineligible focused node (floating, fullscreen, stacked or
tabbed) makes the body after the filter return NoOp. -/
theorem after_filter_ineligible (tree : Node) (config : MasterStackConfig) (f : Node)
    (hf : Node.find_focused_as_ref (fun n => n.focused) tree = some f)
    (hinel : f.nodeType = NodeType.FloatingCon ∨ (1 : ℚ) < f.percent.getD 1 ∨
      f.layout = NodeLayout.Stacked ∨ f.layout = NodeLayout.Tabbed) :
    switch_splitting_after_filter tree config = Except.ok [] := by
  simp only [switch_splitting_after_filter, hf]
  rw [if_pos hinel]

/-- When the located parent's layout already equals the optimal split,
the body after the filter returns NoOp. -/
theorem after_filter_guard (tree : Node) (config : MasterStackConfig) (f p : Node)
    (hf : Node.find_focused_as_ref (fun n => n.focused) tree = some f)
    (hp : Node.find_focused_as_ref (fun n => n.nodes.any fun m => m.focused) tree = some p)
    (hguard : calculate_optimal_split p = p.layout) :
    switch_splitting_after_filter tree config = Except.ok [] := by
  simp only [switch_splitting_after_filter, hf, hp]
  by_cases helig : f.nodeType = NodeType.FloatingCon ∨ (1 : ℚ) < f.percent.getD 1 ∨
      f.layout = NodeLayout.Stacked ∨ f.layout = NodeLayout.Tabbed
  · rw [if_pos helig]
  · rw [if_neg helig, if_pos hguard]

/-- An eligible focus whose parent layout differs from the optimal
split makes the body issue exactly one split command. -/
theorem after_filter_split (tree : Node) (config : MasterStackConfig) (f p : Node)
    (hf : Node.find_focused_as_ref (fun n => n.focused) tree = some f)
    (helig : ¬(f.nodeType = NodeType.FloatingCon ∨ (1 : ℚ) < f.percent.getD 1 ∨
      f.layout = NodeLayout.Stacked ∨ f.layout = NodeLayout.Tabbed))
    (hp : Node.find_focused_as_ref (fun n => n.nodes.any fun m => m.focused) tree = some p)
    (hneq : calculate_optimal_split p ≠ p.layout) :
    switch_splitting_after_filter tree config = Except.ok ["splitv"] ∨
      switch_splitting_after_filter tree config = Except.ok ["splith"] := by
  simp only [switch_splitting_after_filter, hf, hp]
  rw [if_neg helig, if_neg hneq]
  rcases calculate_optimal_split_cases p with h | h
  · left
    rw [h]
    simp [apply_master_stack_layout_eq_nil]
  · right
    rw [h]
    simp [apply_master_stack_layout_eq_nil]

/-- Every command the body after the filter may issue is a split
command. -/
theorem after_filter_vocab (tree : Node) (config : MasterStackConfig) (cmds : List String)
    (h : switch_splitting_after_filter tree config = Except.ok cmds) :
    ∀ c ∈ cmds, c = "splith" ∨ c = "splitv" ∨ c = "balance" := by
  cases hf : Node.find_focused_as_ref (fun n => n.focused) tree with
  | none => simp only [switch_splitting_after_filter, hf] at h; simp at h
  | some f =>
    simp only [switch_splitting_after_filter, hf] at h
    by_cases helig : f.nodeType = NodeType.FloatingCon ∨ (1 : ℚ) < f.percent.getD 1 ∨
        f.layout = NodeLayout.Stacked ∨ f.layout = NodeLayout.Tabbed
    · rw [if_pos helig] at h
      injection h with h
      subst h
      intro c hc
      simp at hc
    · rw [if_neg helig] at h
      cases hp : Node.find_focused_as_ref (fun n => n.nodes.any fun m => m.focused) tree with
      | none => simp only [hp] at h; simp at h
      | some p =>
        simp only [hp] at h
        by_cases hguard : calculate_optimal_split p = p.layout
        · rw [if_pos hguard] at h
          injection h with h
          subst h
          intro c hc
          simp at hc
        · rw [if_neg hguard] at h
          rcases calculate_optimal_split_cases p with ho | ho <;>
            simp only [ho, apply_master_stack_layout_eq_nil, List.append_nil] at h
          · injection h with h
            subst h
            intro c hc
            rcases List.mem_singleton.mp hc with rfl
            exact Or.inr (Or.inl rfl)
          · injection h with h
            subst h
            intro c hc
            rcases List.mem_singleton.mp hc with rfl
            exact Or.inl rfl

/-- Every command `switch_splitting_advanced` may issue is a split
command. -/
theorem switch_vocab (workspaces : List Int) (workspace_list : List Workspace)
    (tree : Node) (config : MasterStackConfig) (cmds : List String)
    (h : switch_splitting_advanced workspaces workspace_list tree config = Except.ok cmds) :
    ∀ c ∈ cmds, c = "splith" ∨ c = "splitv" ∨ c = "balance" := by
  unfold switch_splitting_advanced at h
  cases hempty : workspaces.isEmpty with
  | true =>
    rw [hempty] at h
    simp only [if_true] at h
    exact after_filter_vocab tree config cmds h
  | false =>
    rw [hempty] at h
    simp only [Bool.false_eq_true, if_false] at h
    cases hfind : workspace_list.find? fun w => w.focused with
    | none =>
      simp only [hfind, Option.map_none'] at h
      injection h with h
      subst h
      intro c hc
      simp at hc
    | some w =>
      simp only [hfind, Option.map_some'] at h
      cases hc : workspaces.contains w.num with
      | true =>
        rw [hc] at h
        simp only [if_true] at h
        exact after_filter_vocab tree config cmds h
      | false =>
        rw [hc] at h
        simp only [Bool.false_eq_true, if_false] at h
        injection h with h
        subst h
        intro c hc
        simp at hc

/-- Concrete evaluation: the wide parent (1920 x 1080, SplitH) makes the
decision issue "splitv". -/
theorem switch_wideParent_eval :
    switch_splitting_advanced [] [] wideParent MasterStackConfig.default =
      Except.ok ["splitv"] := by
  norm_num [switch_splitting_advanced, switch_splitting_after_filter,
    Node.find_focused_as_ref, findInList, wideParent, focusedChild,
    Node.focused, Node.nodes, Node.layout, Node.nodeType, Node.percent, Node.rect,
    calculate_optimal_split, calculate_aspect_ratio,
    apply_master_stack_layout, is_master_window, Node.windowClass,
    MasterStackConfig.default]
  rw [if_neg (by decide), if_neg (by decide)]

/-- Concrete evaluation: the tall parent (1080 x 1920, SplitV) makes the
decision issue "splith". -/
theorem switch_tallParentV_eval :
    switch_splitting_advanced [] [] tallParentV MasterStackConfig.default =
      Except.ok ["splith"] := by
  norm_num [switch_splitting_advanced, switch_splitting_after_filter,
    Node.find_focused_as_ref, findInList, tallParentV, focusedChild,
    Node.focused, Node.nodes, Node.layout, Node.nodeType, Node.percent, Node.rect,
    calculate_optimal_split, calculate_aspect_ratio,
    apply_master_stack_layout, is_master_window, Node.windowClass,
    MasterStackConfig.default]
  rw [if_neg (by decide), if_neg (by decide)]

/-- Concrete evaluation: the tall parent already SplitH yields NoOp. -/
theorem switch_tallParentH_eval :
    switch_splitting_advanced [] [] tallParentH MasterStackConfig.default =
      Except.ok [] := by
  norm_num [switch_splitting_advanced, switch_splitting_after_filter,
    Node.find_focused_as_ref, findInList, tallParentH, focusedChild,
    Node.focused, Node.nodes, Node.layout, Node.nodeType, Node.percent, Node.rect,
    calculate_optimal_split, calculate_aspect_ratio,
    apply_master_stack_layout, is_master_window, Node.windowClass,
    MasterStackConfig.default]

/-! ## Claims -/

/-- C8: the aspect-ratio function is total with no failure mode: for
every rectangle with non-zero height it returns width divided by
height, and for every rectangle whose height is 0 it returns exactly
1.0 instead of dividing by zero. -/
theorem C8_aspect_ratio_total (n : Node) :
    (n.rect.height = 0 → calculate_aspect_ratio n = 1) ∧
    (n.rect.height ≠ 0 →
      calculate_aspect_ratio n = ((n.rect.width : ℚ) / (n.rect.height : ℚ))) := by
  constructor
  · intro h
    simp [calculate_aspect_ratio, h]
  · intro h
    have h' : ((n.rect.height : ℚ)) ≠ 0 := by exact_mod_cast h
    simp [calculate_aspect_ratio, h']

/-- A degenerate node whose rectangle has height 0. -/
def zeroHeightNode : Node :=
  Node.mk 3 false NodeLayout.SplitH NodeType.Con ⟨0, 0, 800, 0⟩ none [] [] none

/-- Witness for C8: evaluated at the degenerate height-0 rectangle and
at the 1920 x 1080 rectangle. -/
theorem C8_witness :
    calculate_aspect_ratio zeroHeightNode = 1 ∧
    calculate_aspect_ratio wideParent =
      ((wideParent.rect.width : ℚ) / (wideParent.rect.height : ℚ)) :=
  ⟨(C8_aspect_ratio_total zeroHeightNode).1 rfl,
   (C8_aspect_ratio_total wideParent).2 (by decide)⟩

/-- C5: the desired-orientation function follows the square-up-parent
policy: aspect ratio strictly greater than 1.0 gives SplitV, ratio at
most 1.0 gives SplitH; and the 1920 x 1080 parent currently SplitH
yields the command "splitv". -/
theorem C5_square_up_parent_policy :
    (∀ n : Node, 1 < calculate_aspect_ratio n →
      calculate_optimal_split n = NodeLayout.SplitV) ∧
    (∀ n : Node, calculate_aspect_ratio n ≤ 1 →
      calculate_optimal_split n = NodeLayout.SplitH) ∧
    switch_splitting_advanced [] [] wideParent MasterStackConfig.default =
      Except.ok ["splitv"] := by
  refine ⟨fun n h => ?_, fun n h => ?_, switch_wideParent_eval⟩
  · unfold calculate_optimal_split
    exact if_pos h
  · unfold calculate_optimal_split
    exact if_neg (not_lt.mpr h)

/-- Witness for C5: the wide 1920 x 1080 parent has ratio above 1 and
gets SplitV; the tall 1080 x 1920 parent has ratio below 1 and gets
SplitH. -/
theorem C5_witness :
    calculate_optimal_split wideParent = NodeLayout.SplitV ∧
    calculate_optimal_split tallParentV = NodeLayout.SplitH :=
  ⟨C5_square_up_parent_policy.1 wideParent
      (by norm_num [calculate_aspect_ratio, wideParent, Node.rect]),
   C5_square_up_parent_policy.2.1 tallParentV
      (by norm_num [calculate_aspect_ratio, tallParentV, Node.rect])⟩

/-- C4 counterexample: for the 1080 x 1920 parent whose current layout
is SplitVertical the decision does NOT return NoOp — it issues the
"splith" command, because the optimal split for a tall parent is
SplitH, not the current SplitV. -/
theorem C4_counterexample :
    switch_splitting_advanced [] [] tallParentV MasterStackConfig.default =
      Except.ok ["splith"] ∧
    (Except.ok ["splith"] : Except String (List String)) ≠ Except.ok [] :=
  ⟨switch_tallParentV_eval, by simp⟩

/-- C4 (amended): for a 1080 x 1920 parent the desired orientation is
SplitH; with current layout SplitVertical the decision issues "splith",
and it returns NoOp when the current layout is already
SplitHorizontal. -/
theorem C4_tall_parent_behavior :
    calculate_optimal_split tallParentV = NodeLayout.SplitH ∧
    switch_splitting_advanced [] [] tallParentV MasterStackConfig.default =
      Except.ok ["splith"] ∧
    switch_splitting_advanced [] [] tallParentH MasterStackConfig.default =
      Except.ok [] := by
  refine ⟨?_, switch_tallParentV_eval, switch_tallParentH_eval⟩
  norm_num [calculate_optimal_split, calculate_aspect_ratio, tallParentV, Node.rect]

/-- C6: whenever the eligibility checks fail — non-empty allow-list
whose membership test fails (or no workspace focused), or a floating,
fullscreen (percent above 1.0), stacked or tabbed focused node — the
decision returns NoOp and issues no command, regardless of tree
geometry. -/
theorem C6_ineligible_noop (workspaces : List Int) (workspace_list : List Workspace)
    (tree : Node) (config : MasterStackConfig)
    (h : (workspaces ≠ [] ∧
           ((workspace_list.find? fun w => w.focused).all
             fun w => !workspaces.contains w.num) = true) ∨
         (∃ f, Node.find_focused_as_ref (fun n => n.focused) tree = some f ∧
           (f.nodeType = NodeType.FloatingCon ∨ (1 : ℚ) < f.percent.getD 1 ∨
            f.layout = NodeLayout.Stacked ∨ f.layout = NodeLayout.Tabbed))) :
    switch_splitting_advanced workspaces workspace_list tree config = Except.ok [] := by
  rcases h with ⟨hne, hall⟩ | ⟨f, hf, hinel⟩
  · have hne' : workspaces.isEmpty = false := by
      cases workspaces with
      | nil => exact absurd rfl hne
      | cons a l => rfl
    unfold switch_splitting_advanced
    rw [hne']
    simp only [Bool.false_eq_true, if_false]
    cases hw : workspace_list.find? fun w => w.focused with
    | none => simp
    | some w =>
      rw [hw] at hall
      have hnmem : w.num ∉ workspaces := by simpa [Option.all] using hall
      simp [hnmem]
  · exact switch_ok_nil_of_after workspaces workspace_list tree config
      (after_filter_ineligible tree config f hf hinel)

/-- Witness for C6: allow-list {2, 4} with focused workspace 3 yields
NoOp even though the tree geometry would demand a split. -/
theorem C6_witness :
    switch_splitting_advanced [2, 4] [⟨3, true⟩] wideParent MasterStackConfig.default =
      Except.ok [] :=
  C6_ineligible_noop [2, 4] [⟨3, true⟩] wideParent MasterStackConfig.default
    (Or.inl ⟨by decide, by decide⟩)

/-- C7 counterexample: the decision function is pure, so invoking it
twice in succession against the same unchanged tree, workspaces and
configuration returns the same answer both times — here the wide
parent yields "splitv" on the first AND the second invocation, so the
second invocation is not NoOp. -/
theorem C7_counterexample :
    (switch_splitting_advanced [] [] wideParent MasterStackConfig.default,
        switch_splitting_advanced [] [] wideParent MasterStackConfig.default) =
      (Except.ok ["splitv"], Except.ok ["splitv"]) ∧
    (Except.ok ["splitv"] : Except String (List String)) ≠ Except.ok [] :=
  ⟨by rw [switch_wideParent_eval], by simp⟩

/-- C7 (amended): whenever the located parent's current layout already
equals the desired orientation computed from its geometry the decision
returns NoOp; and on the same unchanged inputs a repeated invocation
returns whatever the first returned, so once the decision returns NoOp
every repetition also returns NoOp (the second invocation is NoOp only
when the first command has already taken effect in the tree). -/
theorem C7_idempotence_guard :
    (∀ (workspaces : List Int) (workspace_list : List Workspace) (tree : Node)
        (config : MasterStackConfig) (f p : Node),
        Node.find_focused_as_ref (fun n => n.focused) tree = some f →
        Node.find_focused_as_ref (fun n => n.nodes.any fun m => m.focused) tree = some p →
        calculate_optimal_split p = p.layout →
        switch_splitting_advanced workspaces workspace_list tree config = Except.ok []) ∧
    (∀ (workspaces : List Int) (workspace_list : List Workspace) (tree : Node)
        (config : MasterStackConfig),
        switch_splitting_advanced workspaces workspace_list tree config = Except.ok [] →
        (switch_splitting_advanced workspaces workspace_list tree config,
            switch_splitting_advanced workspaces workspace_list tree config) =
          (Except.ok [], Except.ok [])) := by
  constructor
  · intro workspaces workspace_list tree config f p hf hp hguard
    exact switch_ok_nil_of_after workspaces workspace_list tree config
      (after_filter_guard tree config f p hf hp hguard)
  · intro workspaces workspace_list tree config h
    rw [h]

/-- Witness for C7: the tall parent already laid out SplitH is already
in its desired orientation, so the decision returns NoOp. -/
theorem C7_witness :
    switch_splitting_advanced [] [] tallParentH MasterStackConfig.default =
      Except.ok [] :=
  C7_idempotence_guard.1 [] [] tallParentH MasterStackConfig.default
    focusedChild tallParentH
    (by simp [Node.find_focused_as_ref, findInList, tallParentH, focusedChild, Node.focused])
    (by simp [Node.find_focused_as_ref, findInList, tallParentH, focusedChild,
      Node.focused, Node.nodes])
    (by norm_num [calculate_optimal_split, calculate_aspect_ratio, tallParentH,
      Node.rect, Node.layout])

/-- C10: the desired-orientation function returns only SplitV or SplitH
(never Stacked, Tabbed, None or any other layout), so the fallback
match arm of the decision function is unreachable: an eligible focus
whose parent layout differs from the desired orientation always
produces exactly one split command. -/
theorem C10_split_totality :
    (∀ n : Node, calculate_optimal_split n = NodeLayout.SplitV ∨
      calculate_optimal_split n = NodeLayout.SplitH) ∧
    (∀ (workspaces : List Int) (workspace_list : List Workspace) (tree : Node)
        (config : MasterStackConfig) (f p : Node),
        Node.find_focused_as_ref (fun n => n.focused) tree = some f →
        ¬(f.nodeType = NodeType.FloatingCon ∨ (1 : ℚ) < f.percent.getD 1 ∨
          f.layout = NodeLayout.Stacked ∨ f.layout = NodeLayout.Tabbed) →
        (workspaces = [] ∨ ∃ w, (workspace_list.find? fun x => x.focused) = some w ∧
          workspaces.contains w.num = true) →
        Node.find_focused_as_ref (fun n => n.nodes.any fun m => m.focused) tree = some p →
        calculate_optimal_split p ≠ p.layout →
        switch_splitting_advanced workspaces workspace_list tree config =
            Except.ok ["splitv"] ∨
          switch_splitting_advanced workspaces workspace_list tree config =
            Except.ok ["splith"]) := by
  refine ⟨calculate_optimal_split_cases, ?_⟩
  intro workspaces workspace_list tree config f p hf helig hws hp hneq
  rw [switch_filter_pass workspaces workspace_list tree config hws]
  exact after_filter_split tree config f p hf helig hp hneq

/-- Witness for C10: the eligible focus under the wide SplitH parent
produces exactly the one command "splitv". -/
theorem C10_witness :
    switch_splitting_advanced [] [] wideParent MasterStackConfig.default =
        Except.ok ["splitv"] ∨
      switch_splitting_advanced [] [] wideParent MasterStackConfig.default =
        Except.ok ["splith"] :=
  C10_split_totality.2 [] [] wideParent MasterStackConfig.default
    focusedChild wideParent
    (by simp [Node.find_focused_as_ref, findInList, wideParent, focusedChild, Node.focused])
    (by
      intro h
      rcases h with h | h | h | h
      · exact absurd h (by decide)
      · rw [show focusedChild.percent = some (1/2 : ℚ) from rfl] at h
        norm_num at h
      · exact absurd h (by decide)
      · exact absurd h (by decide))
    (Or.inl rfl)
    (by simp [Node.find_focused_as_ref, findInList, wideParent, focusedChild,
      Node.focused, Node.nodes])
    (by
      have h : calculate_optimal_split wideParent = NodeLayout.SplitV := by
        norm_num [calculate_optimal_split, calculate_aspect_ratio, wideParent, Node.rect]
      rw [h, show wideParent.layout = NodeLayout.SplitH from rfl]
      decide)

/-- C9: every command string the program ever passes to the IPC
run-command collaborator, over any finite sequence of events, is one of
exactly "splith", "splitv" or "balance". -/
theorem C9_command_vocabulary (workspaces : List Int) (config : MasterStackConfig)
    (events : List Event) (c : String)
    (hc : c ∈ dispatch workspaces config events) :
    c = "splith" ∨ c = "splitv" ∨ c = "balance" := by
  induction events with
  | nil => simp [dispatch] at hc
  | cons e rest ih =>
    simp only [dispatch, List.mem_append] at hc
    rcases hc with hc | hc
    · cases e with
      | Other => simp [handle_event] at hc
      | Window change workspace_list tree =>
        cases change with
        | Focus =>
          simp only [handle_event] at hc
          cases hsw : switch_splitting_advanced workspaces workspace_list tree config with
          | ok cmds =>
            simp only [hsw] at hc
            exact switch_vocab workspaces workspace_list tree config cmds hsw c hc
          | error e =>
            simp only [hsw] at hc
            simp at hc
        | New =>
          simp only [handle_event, balance_windows] at hc
          cases hb : config.enable_balance with
          | true =>
            simp only [hb, if_true] at hc
            rcases List.mem_singleton.mp hc with rfl
            exact Or.inr (Or.inr rfl)
          | false =>
            simp only [hb, Bool.false_eq_true, if_false] at hc
            simp at hc
        | Close => simp [handle_event] at hc
        | Title => simp [handle_event] at hc
        | FullscreenMode => simp [handle_event] at hc
        | Move => simp [handle_event] at hc
        | Floating => simp [handle_event] at hc
        | Urgent => simp [handle_event] at hc
        | Mark => simp [handle_event] at hc
    · exact ih hc

/-- Witness for C9: a single New event with balancing enabled issues
"balance", which is in the vocabulary. -/
theorem C9_witness :
    ("balance" : String) = "splith" ∨ ("balance" : String) = "splitv" ∨
      ("balance" : String) = "balance" :=
  C9_command_vocabulary [] MasterStackConfig.default
    [Event.Window WindowChange.New [] wideParent] "balance"
    (by simp [dispatch, handle_event, balance_windows, MasterStackConfig.default])

/-- C3 counterexample: a tree with no focused node makes the decision
function return an error (not a NoOp), and the dispatcher logs it with
error severity; a focused root with no parent container likewise
produces an error. -/
theorem C3_counterexample :
    switch_splitting_advanced [] [] unfocusedLeaf MasterStackConfig.default =
      Except.error "Could not find the focused node" ∧
    handle_event [] MasterStackConfig.default
        (Event.Window WindowChange.Focus [] unfocusedLeaf) =
      ([], ["switch_splitting_advanced error: Could not find the focused node"]) ∧
    switch_splitting_advanced [] [] rootOnlyFocused MasterStackConfig.default =
      Except.error "Could not find parent container" := by
  have h1 : switch_splitting_advanced [] [] unfocusedLeaf MasterStackConfig.default =
      Except.error "Could not find the focused node" := by
    simp [switch_splitting_advanced, switch_splitting_after_filter,
      Node.find_focused_as_ref, findInList, unfocusedLeaf, Node.focused]
  refine ⟨h1, ?_, ?_⟩
  · simp [handle_event, h1]
  · norm_num [switch_splitting_advanced, switch_splitting_after_filter,
      Node.find_focused_as_ref, findInList, rootOnlyFocused,
      Node.focused, Node.nodes, Node.layout, Node.nodeType, Node.percent]
    intro h
    rcases h with h | h | h <;> exact absurd h (by decide)

/-- C3 (amended): when no node in the snapshot is flagged focused the
decision function returns the error "Could not find the focused node";
when the focused node is eligible but no node has a focused direct
child it returns the error "Could not find parent container"; and the
dispatcher logs every decision error with error severity (it is
reported as an error, not as a silent NoOp). -/
theorem C3_locator_failures_are_errors :
    (∀ (workspace_list : List Workspace) (tree : Node) (config : MasterStackConfig),
        Node.find_focused_as_ref (fun n => n.focused) tree = none →
        switch_splitting_advanced [] workspace_list tree config =
          Except.error "Could not find the focused node") ∧
    (∀ (workspace_list : List Workspace) (tree : Node) (config : MasterStackConfig)
        (f : Node),
        Node.find_focused_as_ref (fun n => n.focused) tree = some f →
        ¬(f.nodeType = NodeType.FloatingCon ∨ (1 : ℚ) < f.percent.getD 1 ∨
          f.layout = NodeLayout.Stacked ∨ f.layout = NodeLayout.Tabbed) →
        Node.find_focused_as_ref (fun n => n.nodes.any fun m => m.focused) tree = none →
        switch_splitting_advanced [] workspace_list tree config =
          Except.error "Could not find parent container") ∧
    (∀ (workspaces : List Int) (config : MasterStackConfig)
        (workspace_list : List Workspace) (tree : Node) (e : String),
        switch_splitting_advanced workspaces workspace_list tree config =
          Except.error e →
        handle_event workspaces config
            (Event.Window WindowChange.Focus workspace_list tree) =
          ([], ["switch_splitting_advanced error: " ++ e])) := by
  refine ⟨?_, ?_, ?_⟩
  · intro workspace_list tree config hf
    rw [switch_filter_pass [] workspace_list tree config (Or.inl rfl)]
    simp only [switch_splitting_after_filter, hf]
  · intro workspace_list tree config f hf helig hp
    rw [switch_filter_pass [] workspace_list tree config (Or.inl rfl)]
    simp only [switch_splitting_after_filter, hf, hp]
    rw [if_neg helig]
  · intro workspaces config workspace_list tree e h
    simp [handle_event, h]

/-- Witness for C3 (amended): evaluated at the unfocused single-node
tree. -/
theorem C3_witness :
    switch_splitting_advanced [] [] unfocusedLeaf MasterStackConfig.default =
      Except.error "Could not find the focused node" :=
  C3_locator_failures_are_errors.1 [] unfocusedLeaf MasterStackConfig.default
    (by simp [Node.find_focused_as_ref, findInList, unfocusedLeaf, Node.focused])

/-- C1 counterexample: a new-window event with balancing enabled emits
only ["balance"], even though the Decision Engine would have produced
"splitv" for the same snapshot — the claimed sequence
["splitv", "balance"] is not what the dispatcher emits. -/
theorem C1_counterexample :
    handle_event [] MasterStackConfig.default
        (Event.Window WindowChange.New [] wideParent) = (["balance"], []) ∧
    switch_splitting_advanced [] [] wideParent MasterStackConfig.default =
      Except.ok ["splitv"] ∧
    (["balance"] : List String) ≠ ["splitv", "balance"] :=
  ⟨by simp [handle_event, balance_windows, MasterStackConfig.default],
   switch_wideParent_eval, by simp⟩

/-- C1 (amended): on a new-window event the dispatcher does not invoke
the Decision Engine at all: it emits exactly a Balance command when
balancing is enabled and nothing otherwise, independently of the tree
snapshot (only focus-change events invoke the Decision Engine). -/
theorem C1_new_window_balance_only (workspaces : List Int) (config : MasterStackConfig)
    (workspace_list : List Workspace) (tree : Node) :
    handle_event workspaces config
        (Event.Window WindowChange.New workspace_list tree) =
      ((if config.enable_balance then ["balance"] else []), []) := by
  cases hb : config.enable_balance <;> simp [handle_event, balance_windows, hb]

/-- C2 counterexample: a window-close event with balancing enabled
produces no command at all — the dispatcher ignores Close events, so no
Balance is issued even though balancing is enabled. -/
theorem C2_counterexample :
    MasterStackConfig.default.enable_balance = true ∧
    handle_event [] MasterStackConfig.default
        (Event.Window WindowChange.Close [] wideParent) = ([], []) ∧
    (([] : List String) ≠ ["balance"]) :=
  ⟨rfl, rfl, by simp⟩

/-- C2 (amended): window-close events are ignored by the dispatcher: no
command is issued for them regardless of whether balancing is enabled
in the configuration. -/
theorem C2_close_ignored (workspaces : List Int) (config : MasterStackConfig)
    (workspace_list : List Workspace) (tree : Node) :
    handle_event workspaces config
        (Event.Window WindowChange.Close workspace_list tree) = ([], []) := rfl

end Autotiling
